import Mathlib

/-!
Verification development for the LateralMovement port-scan monitor.

The repository's core (`Sniffer.py`, `DictCleaner.py`, `FanOutRateCalculator.py`)
is embedded shallowly: Python dicts become association lists with Python's
update-in-place / append-on-new semantics, `time.time()` timestamps become
rationals, byte buffers become lists of naturals below 256, and the
`struct.unpack` calls (which raise `struct.error` on short buffers) become
`Option`-returning dissectors, `none` marking the raised exception.
-/

namespace LateralMovement

/-! ### Python dict model (association list, insertion order preserved) -/

/-- Python `d.get(k, default)` / `d[k]` lookup: first (unique) matching entry. -/
def dictGet? {α β : Type} [DecidableEq α] (t : List (α × β)) (k : α) : Option β :=
  (t.find? (fun e => e.1 = k)).map Prod.snd

/-- Python `d[k] = v`: update the existing entry in place, else append. -/
def dictSet {α β : Type} [DecidableEq α] : List (α × β) → α → β → List (α × β)
  | [], k, v => [(k, v)]
  | e :: rest, k, v => if e.1 = k then (k, v) :: rest else e :: dictSet rest k v

/-- Python `del d[k]`. -/
def dictDel {α β : Type} [DecidableEq α] (t : List (α × β)) (k : α) : List (α × β) :=
  t.filter (fun e => e.1 ≠ k)


/-! ### Frame Dissector (`Sniffer.py` static methods)

A byte buffer is a `List ℕ` whose elements are below 256.  `struct.unpack`
on a too-short buffer raises `struct.error`; each dissector therefore
returns `none` exactly when `run` would raise. -/

/-- One lowercase hexadecimal digit, as produced by Python's format spec `x`. -/
def hexDigit (n : ℕ) : Char :=
  if n < 10 then Char.ofNat (48 + n) else Char.ofNat (87 + n)

/-- Python `'{:02x}'.format b` for a byte. -/
def byteHex (b : ℕ) : String :=
  String.mk [hexDigit (b / 16 % 16), hexDigit (b % 16)]

/-- `Sniffer.mac_format`: format each byte as two lowercase hex digits,
join with no separator, then uppercase. -/
def mac_format (mac : List ℕ) : String :=
  (String.join (mac.map byteHex)).toUpper

/-- `Sniffer.ipv4_format`: decimal bytes joined with dots. -/
def ipv4_format (address : List ℕ) : String :=
  String.intercalate "." (address.map (fun b => toString b))

/-- `socket.htons` on a little-endian host: swap the two bytes of a 16-bit value. -/
def htons (x : ℕ) : ℕ :=
  x % 256 * 256 + x / 256 % 256

/-- `Sniffer.ethernet_dissect`: `struct.unpack('!6s6sH', data[:14])` plus
formatting; `none` when the buffer is shorter than 14 bytes
(`struct.error`). -/
def ethernet_dissect (ethernet_data : List ℕ) :
    Option (String × String × ℕ × List ℕ) :=
  if ethernet_data.length < 14 then none
  else some (mac_format (ethernet_data.take 6),
             mac_format ((ethernet_data.drop 6).take 6),
             htons (ethernet_data.getD 12 0 * 256 + ethernet_data.getD 13 0),
             ethernet_data.drop 14)

/-- `Sniffer.ipv4_dissect`: `struct.unpack('!9x B 2x 4s 4s', ip_data[:20])`
plus formatting; `none` when shorter than 20 bytes. -/
def ipv4_dissect (ip_data : List ℕ) :
    Option (ℕ × String × String × List ℕ) :=
  if ip_data.length < 20 then none
  else some (ip_data.getD 9 0,
             ipv4_format ((ip_data.drop 12).take 4),
             ipv4_format ((ip_data.drop 16).take 4),
             ip_data.drop 20)

/-- `Sniffer.tcp_dissect`: `struct.unpack('!HH', transport_data[:4])`. -/
def tcp_dissect (transport_data : List ℕ) : Option (ℕ × ℕ) :=
  if transport_data.length < 4 then none
  else some (transport_data.getD 0 0 * 256 + transport_data.getD 1 0,
             transport_data.getD 2 0 * 256 + transport_data.getD 3 0)

/-- `Sniffer.udp_dissect`: identical byte layout to `tcp_dissect`. -/
def udp_dissect (transport_data : List ℕ) : Option (ℕ × ℕ) :=
  if transport_data.length < 4 then none
  else some (transport_data.getD 0 0 * 256 + transport_data.getD 1 0,
             transport_data.getD 2 0 * 256 + transport_data.getD 3 0)

/-- `Sniffer.icmp_dissect`: `struct.unpack('!BB', transport_data[:2])`. -/
def icmp_dissect (transport_data : List ℕ) : Option (ℕ × ℕ) :=
  if transport_data.length < 2 then none
  else some (transport_data.getD 0 0, transport_data.getD 1 0)

/-! ### Contact Table and the Capture Worker step (`Sniffer.run`) -/

/-- A Flow Key: `(src_ip, dest_ip, dest_port)` as built in `Sniffer.run`. -/
abbrev FlowKey : Type := String × String × ℕ

/-- The shared `first_contacts` dictionary: Flow Key ↦ last-seen timestamp. -/
abbrev Table : Type := List (FlowKey × ℚ)

/-- One iteration of the body of `Sniffer.run` after a frame was received:
dissect the Ethernet layer, and on ethertype 8 the IPv4 layer; for IP
protocol 6 (TCP) or 17 (UDP) dissect the ports and upsert
`first_contacts[(src_ip, dest_ip, dest_port)] = now`.  `none` models a
`struct.error` escaping the loop (the thread dies); `some t'` is the table
state after the iteration. -/
def processFrame (t : Table) (frame : List ℕ) (now : ℚ) : Option Table :=
  match ethernet_dissect frame with
  | none => none
  | some (_, _, protocol, ip_data) =>
    if protocol = 8 then
      match ipv4_dissect ip_data with
      | none => none
      | some (ip_protocol, src_ip, dest_ip, transport_data) =>
        if ip_protocol = 6 then
          match tcp_dissect transport_data with
          | none => none
          | some (_, dest_port) => some (dictSet t (src_ip, dest_ip, dest_port) now)
        else if ip_protocol = 17 then
          match udp_dissect transport_data with
          | none => none
          | some (_, dest_port) => some (dictSet t (src_ip, dest_ip, dest_port) now)
        else some t
    else some t

/-! ### Expiry Worker (`DictCleaner.run`) -/

namespace DictCleaner

/-- Default of the `max_age_seconds` parameter of `DictCleaner.__init__`. -/
def max_age_default : ℚ := 300

/-- The `keys_to_remove` list built by one `DictCleaner.run` iteration:
keys whose age relative to the single reference time exceeds the limit,
collected before any deletion happens. -/
def keys_to_remove (t : Table) (current_time max_age_seconds : ℚ) : List FlowKey :=
  (t.filter (fun e => current_time - e.2 > max_age_seconds)).map Prod.fst

/-- One full `DictCleaner.run` iteration: collect `keys_to_remove` from the
pre-state, then `del` each collected key. -/
def cleanStep (t : Table) (current_time max_age_seconds : ℚ) : Table :=
  (keys_to_remove t current_time max_age_seconds).foldl
    (fun acc key => dictDel acc key) t

end DictCleaner

/-! ### Rate Analyzer (`FanOutRateCalculator.run`) -/

namespace FanOutRateCalculator

/-- `ages = [1, 60, 300]` — the three window thresholds in seconds. -/
def ages : List ℕ := [1, 60, 300]

/-- `max_connections = [5, 100, 300]` — per-window fan-out thresholds. -/
def max_connections : List ℕ := [5, 100, 300]

/-- The per-cycle `source_connections` dictionary: source IP ↦ 3-vector of
window counts, in the order the loop builds them (index `i` counts entries
with `current_time - timestamp < ages[i]`). -/
abbrev Snapshot : Type := List (String × List ℕ)

/-- `source_connections.get(source, [0,0,0])`. -/
def snapGet (s : Snapshot) (source : String) : List ℕ :=
  (dictGet? s source).getD [0, 0, 0]

/-- The inner  `for i in range(len(ages))`  loop of the snapshot scan, for
one table entry: bump counter `i` whenever the entry's age is inside
window `i`. -/
def scanEntry (current_time : ℚ) (s : Snapshot) (e : FlowKey × ℚ) : Snapshot :=
  (List.range ages.length).foldl
    (fun acc i =>
      if current_time - e.2 < (ages.getD i 0 : ℚ) then
        dictSet acc e.1.1 ((snapGet acc e.1.1).set i ((snapGet acc e.1.1).getD i 0 + 1))
      else acc)
    s

/-- The snapshot scan over the whole shared dictionary (the locked loop of
one `FanOutRateCalculator.run` cycle), starting from the empty
`source_connections`. -/
def buildSnapshot (t : Table) (current_time : ℚ) : Snapshot :=
  t.foldl (scanEntry current_time) []

/-- Number of table entries from `source` whose age at `current_time` is
strictly below `window` seconds. -/
def windowCount (t : Table) (current_time : ℚ) (source : String) (window : ℕ) : ℕ :=
  (t.filter (fun e => e.1.1 = source ∧ current_time - e.2 < (window : ℚ))).length

/-- The analyzer's private `blacklist` dictionary: source ↦ list of window
indices already reported. -/
abbrev Blacklist : Type := List (String × List ℕ)

/-- `blacklist.get(key, list())`. -/
def blGet (blacklist : Blacklist) (source : String) : List ℕ :=
  (dictGet? blacklist source).getD []

/-- The `for i in range(len(max_connections))` detection loop for one
source: on `count > threshold`, `continue` when `i` is already
blacklisted, otherwise report `i` and `break`; on `count ≤ threshold`
fall through to the next window. -/
def detectFrom (vec blocked : List ℕ) : List ℕ → Option ℕ
  | [] => none
  | i :: rest =>
    if vec.getD i 0 > max_connections.getD i 0 then
      if i ∈ blocked then detectFrom vec blocked rest
      else some i
    else detectFrom vec blocked rest

/-- Detection outcome for one source in one cycle. -/
def detectTier (vec blocked : List ℕ) : Option ℕ :=
  detectFrom vec blocked (List.range max_connections.length)

/-- Processing of one source of the snapshot: run detection, and on a hit
append the tier to the source's blacklist entry and emit one alert
`(source, tier)`. -/
def processSource (blacklist : Blacklist) (source : String) (vec : List ℕ) :
    Blacklist × List (String × ℕ) :=
  match detectTier vec (blGet blacklist source) with
  | some i => (dictSet blacklist source (blGet blacklist source ++ [i]), [(source, i)])
  | none => (blacklist, [])

/-- One post-scan reporting pass over the snapshot (the second loop of a
`FanOutRateCalculator.run` cycle), threading the blacklist and collecting
the alerts printed this cycle. -/
def runCycle (blacklist : Blacklist) : Snapshot → Blacklist × List (String × ℕ)
  | [] => (blacklist, [])
  | (source, vec) :: rest =>
    let r := processSource blacklist source vec
    let r' := runCycle r.1 rest
    (r'.1, r.2 ++ r'.2)

/-- A sequence of analyzer cycles: each observation is a table state and a
reference time; the blacklist persists across cycles, the alerts
accumulate. -/
def runCycles (blacklist : Blacklist) : List (Table × ℚ) → Blacklist × List (String × ℕ)
  | [] => (blacklist, [])
  | (t, now) :: rest =>
    let r := runCycle blacklist (buildSnapshot t now)
    let r' := runCycles r.1 rest
    (r'.1, r.2 ++ r'.2)

/-- `fanout_per_1s`: the figure printed as the per-second average,
`source_connections[key][2] / 300`. -/
def fanout_per_1s (vec : List ℕ) : ℚ := (vec.getD 2 0 : ℚ) / 300

/-- `fanout_per_1m`: the figure printed as the per-minute average,
`source_connections[key][1] / 5`. -/
def fanout_per_1m (vec : List ℕ) : ℚ := (vec.getD 1 0 : ℚ) / 5

/-- `fanout_per_5m`: the figure printed as the raw 5-minute count,
`source_connections[key][0]`. -/
def fanout_per_5m (vec : List ℕ) : ℚ := (vec.getD 0 0 : ℚ)

end FanOutRateCalculator

/-! ### Frame construction for the round-trip property -/

/-- The two bytes of a 16-bit value in network (big-endian) order. -/
def word16Bytes (x : ℕ) : List ℕ := [x / 256, x % 256]

/-- The four transport-header bytes holding the TCP/UDP ports. -/
def portBytes (src_port dest_port : ℕ) : List ℕ :=
  word16Bytes src_port ++ word16Bytes dest_port

/-- An Ethernet/IPv4/transport frame assembled from known field values:
14-byte Ethernet header, 20-byte IPv4 header (9 filler bytes, protocol,
2 checksum filler bytes, source and destination address), 4 port bytes,
then arbitrary trailing bytes. -/
def buildFrame (dest_mac src_mac : List ℕ) (ethertype : ℕ) (pad9 : List ℕ)
    (ip_protocol : ℕ) (pad2 : List ℕ) (source_ip target_ip : List ℕ)
    (src_port dest_port : ℕ) (rest : List ℕ) : List ℕ :=
  dest_mac ++ src_mac ++ word16Bytes ethertype ++
    pad9 ++ [ip_protocol] ++ pad2 ++ source_ip ++ target_ip ++
    portBytes src_port dest_port ++ rest

/-! ### Lemmas -/

theorem dictGet?_dictSet_same {α β : Type} [DecidableEq α]
    (t : List (α × β)) (k : α) (v : β) : dictGet? (dictSet t k v) k = some v := by
  induction t with
  | nil => simp [dictGet?, dictSet, List.find?]
  | cons e rest ih =>
    by_cases h : e.1 = k
    · simp [dictGet?, dictSet, h, List.find?]
    · simp only [dictSet, if_neg h]
      simpa [dictGet?, List.find?, h] using ih

theorem dictGet?_dictSet_other {α β : Type} [DecidableEq α]
    (t : List (α × β)) (k k' : α) (v : β) (hne : k' ≠ k) :
    dictGet? (dictSet t k v) k' = dictGet? t k' := by
  induction t with
  | nil => simp [dictGet?, dictSet, List.find?, Ne.symm hne]
  | cons e rest ih =>
    by_cases h : e.1 = k
    · have : ¬ (k = k') := fun hh => hne hh.symm
      simp [dictGet?, dictSet, h, List.find?, this]
    · simp only [dictSet, if_neg h]
      by_cases h' : e.1 = k'
      · simp [dictGet?, List.find?, h']
      · simpa [dictGet?, List.find?, h'] using ih

theorem dictSet_keys {α β : Type} [DecidableEq α]
    (t : List (α × β)) (k : α) (v : β) :
    (dictSet t k v).map Prod.fst =
      if (t.map Prod.fst).contains k then t.map Prod.fst else t.map Prod.fst ++ [k] := by
  induction t with
  | nil => simp [dictSet]
  | cons e rest ih =>
    by_cases h : e.1 = k
    · simp [dictSet, h]
    · have hb : (k == e.1) = false := by simp [Ne.symm h]
      simp only [dictSet, if_neg h, List.map_cons, List.contains_cons]
      rw [ih]
      cases hc : (rest.map Prod.fst).contains k with
      | true => simp [hc, hb]
      | false => simp [hc, hb]

namespace FanOutRateCalculator

theorem snapGet_dictSet_same (s : Snapshot) (src : String) (v : List ℕ) :
    snapGet (dictSet s src v) src = v := by
  simp [snapGet, dictGet?_dictSet_same]

theorem snapGet_dictSet_other (s : Snapshot) (src src' : String) (v : List ℕ)
    (h : src' ≠ src) : snapGet (dictSet s src v) src' = snapGet s src' := by
  simp [snapGet, dictGet?_dictSet_other _ _ _ _ h]

theorem scanEntry_snapGet_same (now : ℚ) (s : Snapshot) (e : FlowKey × ℚ)
    (a b c : ℕ) (h : snapGet s e.1.1 = [a, b, c]) :
    snapGet (scanEntry now s e) e.1.1 =
      [a + (if now - e.2 < 1 then 1 else 0),
       b + (if now - e.2 < 60 then 1 else 0),
       c + (if now - e.2 < 300 then 1 else 0)] := by
  have hr : List.range ages.length = [0, 1, 2] := rfl
  have a0 : ((ages.getD 0 0 : ℕ) : ℚ) = 1 := by norm_num [ages]
  have a1 : ((ages.getD 1 0 : ℕ) : ℚ) = 60 := by norm_num [ages]
  have a2 : ((ages.getD 2 0 : ℕ) : ℚ) = 300 := by norm_num [ages]
  simp only [scanEntry, hr, List.foldl_cons, List.foldl_nil, a0, a1, a2]
  by_cases h1 : now - e.2 < 1 <;> by_cases h60 : now - e.2 < 60 <;>
    by_cases h300 : now - e.2 < 300 <;>
    simp [h1, h60, h300, snapGet_dictSet_same, h]

theorem scanEntry_snapGet_other (now : ℚ) (s : Snapshot) (e : FlowKey × ℚ)
    (src' : String) (h : src' ≠ e.1.1) :
    snapGet (scanEntry now s e) src' = snapGet s src' := by
  have hr : List.range ages.length = [0, 1, 2] := rfl
  simp only [scanEntry, hr, List.foldl_cons, List.foldl_nil]
  by_cases h1 : now - e.2 < (1 : ℚ) <;>
    by_cases h60 : now - e.2 < (60 : ℚ) <;>
    by_cases h300 : now - e.2 < (300 : ℚ) <;>
    simp [ages, h1, h60, h300, snapGet_dictSet_other, h]

theorem windowCount_append (t : Table) (e : FlowKey × ℚ) (now : ℚ)
    (src : String) (w : ℕ) :
    windowCount (t ++ [e]) now src w =
      windowCount t now src w +
        (if e.1.1 = src ∧ now - e.2 < (w : ℚ) then 1 else 0) := by
  unfold windowCount
  rw [List.filter_append, List.length_append]
  by_cases hp : e.1.1 = src ∧ now - e.2 < (w : ℚ)
  · simp [hp]
  · simp [hp]

/-- The snapshot scan computes, per source, exactly the three window counts,
in the order index 0 = 1-second window, index 1 = 1-minute window,
index 2 = 5-minute window. -/
theorem snapGet_buildSnapshot (t : Table) (now : ℚ) (src : String) :
    snapGet (buildSnapshot t now) src =
      [windowCount t now src 1, windowCount t now src 60,
       windowCount t now src 300] := by
  induction t using List.reverseRecOn with
  | nil => rfl
  | append_singleton t e ih =>
    have hb : buildSnapshot (t ++ [e]) now = scanEntry now (buildSnapshot t now) e := by
      simp [buildSnapshot, List.foldl_append]
    rw [hb, windowCount_append, windowCount_append, windowCount_append]
    by_cases hsrc : src = e.1.1
    · subst hsrc
      rw [scanEntry_snapGet_same now (buildSnapshot t now) e _ _ _ ih]
      norm_num
    · rw [scanEntry_snapGet_other now (buildSnapshot t now) e src hsrc, ih]
      have he : ¬ (e.1.1 = src) := fun hh => hsrc hh.symm
      simp [he]

theorem blGet_dictSet_same (bl : Blacklist) (src : String) (v : List ℕ) :
    blGet (dictSet bl src v) src = v := by
  simp [blGet, dictGet?_dictSet_same]

theorem blGet_dictSet_other (bl : Blacklist) (src src' : String) (v : List ℕ)
    (h : src' ≠ src) : blGet (dictSet bl src v) src' = blGet bl src' := by
  simp [blGet, dictGet?_dictSet_other _ _ _ _ h]

theorem detectFrom_eq_some (vec blocked l : List ℕ) (i : ℕ)
    (h : detectFrom vec blocked l = some i) :
    i ∈ l ∧ max_connections.getD i 0 < vec.getD i 0 ∧ i ∉ blocked := by
  induction l with
  | nil => simp [detectFrom] at h
  | cons j rest ih =>
    rw [detectFrom] at h
    split_ifs at h with hgt hbl
    · obtain ⟨hm, hx, hb⟩ := ih h
      exact ⟨List.mem_cons_of_mem _ hm, hx, hb⟩
    · obtain rfl : j = i := by simpa using h
      exact ⟨List.mem_cons_self _ _, hgt, hbl⟩
    · obtain ⟨hm, hx, hb⟩ := ih h
      exact ⟨List.mem_cons_of_mem _ hm, hx, hb⟩

theorem detectTier_eq_some (vec blocked : List ℕ) (i : ℕ)
    (h : detectTier vec blocked = some i) :
    i < 3 ∧ max_connections.getD i 0 < vec.getD i 0 ∧ i ∉ blocked := by
  have hr : List.range max_connections.length = [0, 1, 2] := rfl
  rw [detectTier, hr] at h
  obtain ⟨hm, hx, hb⟩ := detectFrom_eq_some vec blocked _ i h
  refine ⟨?_, hx, hb⟩
  have h012 : i = 0 ∨ i = 1 ∨ i = 2 := by simpa using hm
  omega

theorem detectTier_first (vec blocked : List ℕ) (j : ℕ) (hj : j < 3)
    (hex : max_connections.getD j 0 < vec.getD j 0)
    (hnb : j ∉ blocked)
    (hlow : ∀ i, i < j → max_connections.getD i 0 < vec.getD i 0 → i ∈ blocked) :
    detectTier vec blocked = some j := by
  have hr : List.range max_connections.length = [0, 1, 2] := rfl
  rw [detectTier, hr]
  interval_cases j
  · rw [detectFrom, if_pos hex, if_neg hnb]
  · by_cases hx0 : max_connections.getD 0 0 < vec.getD 0 0
    · rw [detectFrom, if_pos hx0, if_pos (hlow 0 (by norm_num) hx0),
        detectFrom, if_pos hex, if_neg hnb]
    · rw [detectFrom, if_neg hx0, detectFrom, if_pos hex, if_neg hnb]
  · by_cases hx0 : max_connections.getD 0 0 < vec.getD 0 0
    · rw [detectFrom, if_pos hx0, if_pos (hlow 0 (by norm_num) hx0)]
      by_cases hx1 : max_connections.getD 1 0 < vec.getD 1 0
      · rw [detectFrom, if_pos hx1, if_pos (hlow 1 (by norm_num) hx1),
          detectFrom, if_pos hex, if_neg hnb]
      · rw [detectFrom, if_neg hx1, detectFrom, if_pos hex, if_neg hnb]
    · rw [detectFrom, if_neg hx0]
      by_cases hx1 : max_connections.getD 1 0 < vec.getD 1 0
      · rw [detectFrom, if_pos hx1, if_pos (hlow 1 (by norm_num) hx1),
          detectFrom, if_pos hex, if_neg hnb]
      · rw [detectFrom, if_neg hx1, detectFrom, if_pos hex, if_neg hnb]

theorem processSource_spec (bl : Blacklist) (src : String) (vec : List ℕ) :
    (∀ S j, j ∈ blGet bl S → j ∈ blGet (processSource bl src vec).1 S) ∧
    (∀ S i, (S, i) ∈ (processSource bl src vec).2 →
        S = src ∧ i ∉ blGet bl S ∧ i ∈ blGet (processSource bl src vec).1 S) ∧
    (processSource bl src vec).2.length ≤ 1 := by
  unfold processSource
  cases hd : detectTier vec (blGet bl src) with
  | none => simp
  | some i =>
    have hni : i ∉ blGet bl src := (detectTier_eq_some vec _ i hd).2.2
    refine ⟨?_, ?_, by simp⟩
    · intro S j hj
      by_cases hS : S = src
      · subst hS
        rw [blGet_dictSet_same]
        exact List.mem_append_left _ hj
      · rwa [blGet_dictSet_other _ _ _ _ hS]
    · intro S k hk
      obtain ⟨rfl, rfl⟩ : S = src ∧ k = i := by simpa using hk
      refine ⟨rfl, hni, ?_⟩
      rw [blGet_dictSet_same]
      simp

theorem runCycle_spec (snap : Snapshot) (bl : Blacklist) :
    (∀ S j, j ∈ blGet bl S → j ∈ blGet (runCycle bl snap).1 S) ∧
    (∀ S i, (S, i) ∈ (runCycle bl snap).2 →
        i ∉ blGet bl S ∧ i ∈ blGet (runCycle bl snap).1 S) ∧
    (runCycle bl snap).2.Nodup := by
  induction snap generalizing bl with
  | nil => simp [runCycle]
  | cons e rest ih =>
    obtain ⟨src, vec⟩ := e
    obtain ⟨p1, p2, p3⟩ := processSource_spec bl src vec
    obtain ⟨q1, q2, q3⟩ := ih (processSource bl src vec).1
    have hrc : runCycle bl ((src, vec) :: rest) =
        ((runCycle (processSource bl src vec).1 rest).1,
         (processSource bl src vec).2 ++ (runCycle (processSource bl src vec).1 rest).2) := by
      simp [runCycle]
    rw [hrc]
    refine ⟨fun S j hj => q1 S j (p1 S j hj), ?_, ?_⟩
    · intro S i hi
      rcases List.mem_append.mp hi with h | h
      · obtain ⟨rfl, hni, hin⟩ := p2 S i h
        exact ⟨hni, q1 _ _ hin⟩
      · obtain ⟨hni1, hin2⟩ := q2 S i h
        exact ⟨fun hc => hni1 (p1 S i hc), hin2⟩
    · have hnd1 : (processSource bl src vec).2.Nodup := by
        rcases hx : (processSource bl src vec).2 with _ | ⟨x, _ | ⟨y, zs⟩⟩
        · simp
        · simp
        · rw [hx] at p3
          simp at p3
      refine hnd1.append q3 ?_
      intro x hx1 hx2
      obtain ⟨S, i⟩ := x
      obtain ⟨_, _, hin⟩ := p2 S i hx1
      exact (q2 S i hx2).1 hin

theorem runCycles_spec (obs : List (Table × ℚ)) (bl : Blacklist) :
    (∀ S j, j ∈ blGet bl S → j ∈ blGet (runCycles bl obs).1 S) ∧
    (∀ S i, (S, i) ∈ (runCycles bl obs).2 →
        i ∉ blGet bl S ∧ i ∈ blGet (runCycles bl obs).1 S) ∧
    (runCycles bl obs).2.Nodup := by
  induction obs generalizing bl with
  | nil => simp [runCycles]
  | cons o rest ih =>
    obtain ⟨t, now⟩ := o
    obtain ⟨p1, p2, p3⟩ := runCycle_spec (buildSnapshot t now) bl
    obtain ⟨q1, q2, q3⟩ := ih (runCycle bl (buildSnapshot t now)).1
    have hrc : runCycles bl ((t, now) :: rest) =
        ((runCycles (runCycle bl (buildSnapshot t now)).1 rest).1,
         (runCycle bl (buildSnapshot t now)).2 ++
           (runCycles (runCycle bl (buildSnapshot t now)).1 rest).2) := by
      simp [runCycles]
    rw [hrc]
    refine ⟨fun S j hj => q1 S j (p1 S j hj), ?_, ?_⟩
    · intro S i hi
      rcases List.mem_append.mp hi with h | h
      · obtain ⟨hni, hin⟩ := p2 S i h
        exact ⟨hni, q1 _ _ hin⟩
      · obtain ⟨hni1, hin2⟩ := q2 S i h
        exact ⟨fun hc => hni1 (p1 S i hc), hin2⟩
    · refine p3.append q3 ?_
      intro x hx1 hx2
      obtain ⟨S, i⟩ := x
      obtain ⟨_, hin⟩ := p2 S i hx1
      exact (q2 S i hx2).1 hin

end FanOutRateCalculator

namespace DictCleaner

theorem foldl_dictDel (ks : List FlowKey) (t : Table) :
    ks.foldl (fun acc k => dictDel acc k) t = t.filter (fun e => decide (e.1 ∉ ks)) := by
  induction ks generalizing t with
  | nil => simp
  | cons k rest ih =>
    rw [List.foldl_cons]
    show rest.foldl (fun acc k => dictDel acc k) (dictDel t k) = _
    rw [ih, dictDel, List.filter_filter]
    congr 1
    funext e
    by_cases h1 : e.1 = k <;> by_cases h2 : e.1 ∈ rest <;> simp [h1, h2]

theorem cleanStep_eq_filter (t : Table) (now maxAge : ℚ) :
    cleanStep t now maxAge =
      t.filter (fun e => decide (e.1 ∉ keys_to_remove t now maxAge)) :=
  foldl_dictDel _ t

theorem mem_keys_to_remove (t : Table) (now maxAge : ℚ)
    (hnd : (t.map Prod.fst).Nodup) (k : FlowKey) (ts : ℚ) (hmem : (k, ts) ∈ t) :
    k ∈ keys_to_remove t now maxAge ↔ now - ts > maxAge := by
  constructor
  · intro hk
    obtain ⟨e, he, hek⟩ := List.mem_map.mp hk
    obtain ⟨het, hexp⟩ := List.mem_filter.mp he
    have : e = (k, ts) :=
      List.inj_on_of_nodup_map hnd het hmem (by simpa using hek)
    subst this
    simpa using hexp
  · intro hexp
    exact List.mem_map.mpr ⟨(k, ts), List.mem_filter.mpr ⟨hmem, by simpa using hexp⟩, rfl⟩

theorem cleanStep_mem (t : Table) (now maxAge : ℚ)
    (hnd : (t.map Prod.fst).Nodup) (k : FlowKey) (ts : ℚ) :
    (k, ts) ∈ cleanStep t now maxAge ↔ (k, ts) ∈ t ∧ ¬ now - ts > maxAge := by
  rw [cleanStep_eq_filter]
  constructor
  · intro h
    obtain ⟨hmem, hkeep⟩ := List.mem_filter.mp h
    have hk : (k, ts).1 ∉ keys_to_remove t now maxAge := by simpa using hkeep
    exact ⟨hmem, fun hexp =>
      hk ((mem_keys_to_remove t now maxAge hnd k ts hmem).mpr hexp)⟩
  · intro ⟨hmem, hfresh⟩
    refine List.mem_filter.mpr ⟨hmem, ?_⟩
    simpa using fun hk => hfresh ((mem_keys_to_remove t now maxAge hnd k ts hmem).mp hk)

end DictCleaner


theorem cons_len (l : List ℕ) (n : ℕ) (h : l.length = n + 1) :
    ∃ a t, l = a :: t ∧ t.length = n := by
  cases l with
  | nil => simp at h
  | cons a t => exact ⟨a, t, rfl, by simpa using h⟩

theorem exists_len_two (l : List ℕ) (h : l.length = 2) : ∃ b0 b1, l = [b0, b1] := by
  obtain ⟨b0, l1, rfl, h1⟩ := cons_len l 1 h
  obtain ⟨b1, l2, rfl, h2⟩ := cons_len l1 0 h1
  rw [List.length_eq_zero.mp h2]
  exact ⟨b0, b1, rfl⟩

theorem exists_len_four (l : List ℕ) (h : l.length = 4) :
    ∃ b0 b1 b2 b3, l = [b0, b1, b2, b3] := by
  obtain ⟨b0, l1, rfl, h1⟩ := cons_len l 3 h
  obtain ⟨b1, l2, rfl, h2⟩ := cons_len l1 2 h1
  obtain ⟨b2, l3, rfl, h3⟩ := cons_len l2 1 h2
  obtain ⟨b3, l4, rfl, h4⟩ := cons_len l3 0 h3
  rw [List.length_eq_zero.mp h4]
  exact ⟨b0, b1, b2, b3, rfl⟩

theorem exists_len_six (l : List ℕ) (h : l.length = 6) :
    ∃ b0 b1 b2 b3 b4 b5, l = [b0, b1, b2, b3, b4, b5] := by
  obtain ⟨b0, l1, rfl, h1⟩ := cons_len l 5 h
  obtain ⟨b1, l2, rfl, h2⟩ := cons_len l1 4 h1
  obtain ⟨b2, l3, rfl, h3⟩ := cons_len l2 3 h2
  obtain ⟨b3, l4, rfl, h4⟩ := cons_len l3 2 h3
  obtain ⟨b4, l5, rfl, h5⟩ := cons_len l4 1 h4
  obtain ⟨b5, l6, rfl, h6⟩ := cons_len l5 0 h5
  rw [List.length_eq_zero.mp h6]
  exact ⟨b0, b1, b2, b3, b4, b5, rfl⟩

theorem exists_len_nine (l : List ℕ) (h : l.length = 9) :
    ∃ b0 b1 b2 b3 b4 b5 b6 b7 b8, l = [b0, b1, b2, b3, b4, b5, b6, b7, b8] := by
  obtain ⟨b0, l1, rfl, h1⟩ := cons_len l 8 h
  obtain ⟨b1, l2, rfl, h2⟩ := cons_len l1 7 h1
  obtain ⟨b2, l3, rfl, h3⟩ := cons_len l2 6 h2
  obtain ⟨b3, l4, rfl, h4⟩ := cons_len l3 5 h3
  obtain ⟨b4, l5, rfl, h5⟩ := cons_len l4 4 h4
  obtain ⟨b5, l6, rfl, h6⟩ := cons_len l5 3 h5
  obtain ⟨b6, l7, rfl, h7⟩ := cons_len l6 2 h6
  obtain ⟨b7, l8, rfl, h8⟩ := cons_len l7 1 h7
  obtain ⟨b8, l9, rfl, h9⟩ := cons_len l8 0 h8
  rw [List.length_eq_zero.mp h9]
  exact ⟨b0, b1, b2, b3, b4, b5, b6, b7, b8, rfl⟩

theorem mac_format_eq (mac : List ℕ) :
    mac_format mac = ⟨((mac.map byteHex).map String.data).flatten.map Char.toUpper⟩ := by
  unfold mac_format String.toUpper
  rw [String.map_eq]
  congr 1
  rw [String.data_join]

theorem byteHex_data (b : ℕ) :
    (byteHex b).data = [hexDigit (b / 16 % 16), hexDigit (b % 16)] := rfl

theorem hexDigit_toUpper_mem (n : ℕ) (h : n < 16) :
    Char.toUpper (hexDigit n) ∈ "0123456789ABCDEF".data := by
  interval_cases n <;> decide

theorem dictSet_length_of_mem {α β : Type} [DecidableEq α]
    (t : List (α × β)) (k : α) (v : β)
    (h : k ∈ t.map Prod.fst) : (dictSet t k v).length = t.length := by
  induction t with
  | nil => simp at h
  | cons e rest ih =>
    by_cases he : e.1 = k
    · simp [dictSet, he]
    · have h' : k ∈ rest.map Prod.fst := by
        simp only [List.map_cons, List.mem_cons] at h
        rcases h with h | h
        · exact absurd h.symm he
        · exact h
      simp [dictSet, he, ih h']

namespace FanOutRateCalculator

theorem windowCount_mono (t : Table) (now : ℚ) (src : String) (w w' : ℕ)
    (h : w ≤ w') : windowCount t now src w ≤ windowCount t now src w' := by
  unfold windowCount
  refine List.Sublist.length_le (List.monotone_filter_right _ ?_)
  intro e he
  simp only [decide_eq_true_eq] at he ⊢
  exact ⟨he.1, lt_of_lt_of_le he.2 (by exact_mod_cast Nat.cast_le.mpr h)⟩

end FanOutRateCalculator

/-! ### Claims -/

open FanOutRateCalculator

/-- C6: for every buffer of at least 14+20+4 bytes built from known field
values, dissection round-trips: the Ethernet, IPv4 and TCP/UDP dissectors
return exactly the constructed field values, the MAC strings are 12
uppercase hexadecimal characters with no separator, the IP addresses are
the dotted-decimal renderings, and the 2-byte ethertype is converted by
byte swap, `htons`, so 0x0800 (2048) on the wire yields 8. -/
theorem claim_C6_roundtrip
    (dest_mac src_mac pad9 pad2 source_ip target_ip rest : List ℕ)
    (ethertype ip_protocol src_port dest_port : ℕ)
    (hdm : dest_mac.length = 6) (hsm : src_mac.length = 6)
    (hp9 : pad9.length = 9) (hp2 : pad2.length = 2)
    (hsi : source_ip.length = 4) (hti : target_ip.length = 4)
    (het : ethertype < 65536) (hsp : src_port < 65536) (hdp : dest_port < 65536) :
    ethernet_dissect (buildFrame dest_mac src_mac ethertype pad9 ip_protocol pad2
        source_ip target_ip src_port dest_port rest) =
      some (mac_format dest_mac, mac_format src_mac, htons ethertype,
        pad9 ++ [ip_protocol] ++ pad2 ++ source_ip ++ target_ip ++
          portBytes src_port dest_port ++ rest) ∧
    ipv4_dissect (pad9 ++ [ip_protocol] ++ pad2 ++ source_ip ++ target_ip ++
        portBytes src_port dest_port ++ rest) =
      some (ip_protocol, ipv4_format source_ip, ipv4_format target_ip,
        portBytes src_port dest_port ++ rest) ∧
    tcp_dissect (portBytes src_port dest_port ++ rest) = some (src_port, dest_port) ∧
    udp_dissect (portBytes src_port dest_port ++ rest) = some (src_port, dest_port) ∧
    (mac_format dest_mac).length = 12 ∧
    (∀ c ∈ (mac_format dest_mac).data, c ∈ "0123456789ABCDEF".data) ∧
    htons 2048 = 8 := by
  obtain ⟨m0, m1, m2, m3, m4, m5, rfl⟩ := exists_len_six dest_mac hdm
  obtain ⟨n0, n1, n2, n3, n4, n5, rfl⟩ := exists_len_six src_mac hsm
  obtain ⟨a0, a1, a2, a3, a4, a5, a6, a7, a8, rfl⟩ := exists_len_nine pad9 hp9
  obtain ⟨q0, q1, rfl⟩ := exists_len_two pad2 hp2
  obtain ⟨s0, s1, s2, s3, rfl⟩ := exists_len_four source_ip hsi
  obtain ⟨d0, d1, d2, d3, rfl⟩ := exists_len_four target_ip hti
  have hmodE : ethertype / 256 * 256 + ethertype % 256 = ethertype := by omega
  have hmodS : src_port / 256 * 256 + src_port % 256 = src_port := by omega
  have hmodD : dest_port / 256 * 256 + dest_port % 256 = dest_port := by omega
  refine ⟨?_, ?_, ?_, ?_, ?_, ?_, by decide⟩
  · rw [ethernet_dissect, if_neg ?_]
    · simp [buildFrame, word16Bytes, portBytes, hmodE]
    · simp only [buildFrame, word16Bytes, portBytes]
      simp
  · rw [ipv4_dissect, if_neg ?_]
    · simp [word16Bytes, portBytes]
    · simp [word16Bytes, portBytes]
  · rw [tcp_dissect, if_neg ?_]
    · simp [word16Bytes, portBytes, hmodS, hmodD]
    · simp [word16Bytes, portBytes]
  · rw [udp_dissect, if_neg ?_]
    · simp [word16Bytes, portBytes, hmodS, hmodD]
    · simp [word16Bytes, portBytes]
  · rw [mac_format_eq]
    simp [byteHex_data, String.length]
  · rw [mac_format_eq]
    intro c hc
    simp only [List.map_cons, List.map_nil, byteHex_data, List.flatten] at hc
    simp only [List.append_nil, List.cons_append, List.nil_append, List.map_cons,
      List.map_nil, List.mem_cons, List.not_mem_nil, or_false] at hc
    rcases hc with rfl | rfl | rfl | rfl | rfl | rfl | rfl | rfl | rfl | rfl | rfl | rfl <;>
      exact hexDigit_toUpper_mem _ (by omega)

/-- C6 witness: the round-trip at a concrete frame. -/
theorem claim_C6_roundtrip_witness :
    tcp_dissect (portBytes 80 443 ++ []) = some (80, 443) ∧ htons 2048 = 8 := by
  have h := claim_C6_roundtrip [170, 187, 12, 1, 2, 255] [1, 2, 3, 4, 5, 6]
    [0, 0, 0, 0, 0, 0, 0, 0, 0] [0, 0] [10, 0, 0, 5] [192, 168, 0, 1] []
    2048 6 80 443 (by decide) (by decide) (by decide) (by decide) (by decide)
    (by decide) (by decide) (by decide) (by decide)
  exact ⟨h.2.2.1, h.2.2.2.2.2.2⟩

/-- C1: the code violates the claim.  A frame shorter than the 14-byte
Ethernet header makes `struct.unpack` raise `struct.error` inside
`ethernet_dissect`, and `Sniffer.run` has no handler for it: the exception
escapes the worker loop (modelled by `processFrame` returning `none`)
instead of the frame being discarded and the loop continuing.  The table
is indeed left unmutated, but only because the thread dies. -/
theorem claim_C1_short_frame_crash :
    ethernet_dissect (List.replicate 10 0) = none ∧
    (∀ (t : Table) (now : ℚ), processFrame t (List.replicate 10 0) now = none) := by
  constructor
  · decide
  · intro t now
    rw [processFrame]
    have h : ethernet_dissect (List.replicate 10 0) = none := by decide
    rw [h]

/-- C2 (as stated) is false at a one-entry table whose single flow is 30
seconds old: index 0 of the snapshot vector is the 1-second count (0), not
the 5-minute count (1). -/
theorem claim_C2_counterexample :
    ¬ ((snapGet (buildSnapshot [(("10.0.0.5", "10.0.0.9", 1), (70 : ℚ))] 100)
          "10.0.0.5").getD 0 0
        = windowCount [(("10.0.0.5", "10.0.0.9", 1), (70 : ℚ))] 100 "10.0.0.5" 300) := by
  have hvec : snapGet (buildSnapshot [(("10.0.0.5", "10.0.0.9", 1), (70 : ℚ))] 100)
      "10.0.0.5" = [0, 1, 1] := by
    norm_num [buildSnapshot, scanEntry, ages, dictSet, snapGet, dictGet?,
      List.range, List.foldl]
  have hcnt : windowCount [(("10.0.0.5", "10.0.0.9", 1), (70 : ℚ))] 100
      "10.0.0.5" 300 = 1 := by
    norm_num [windowCount, List.filter]
  rw [hvec, hcnt]
  decide

/-- C2 amended: the per-source count vector is ordered
`[count_1s, count_1m, count_5m]` — index 0 counts flows younger than the
1-second threshold, index 1 younger than 1 minute, index 2 younger than
5 minutes. -/
theorem claim_C2_amended (t : Table) (now : ℚ) (src : String) :
    snapGet (buildSnapshot t now) src =
      [windowCount t now src 1, windowCount t now src 60,
       windowCount t now src 300] :=
  snapGet_buildSnapshot t now src

/-- C3 (as stated) is false at a cycle that really emits an Alert: with 6
flows younger than 1 s, 8 younger than 1 min and 9 younger than 5 min from
one source, the cycle alerts that source (tier 0, count 6 > 5), yet the
printed per-minute figure is `count_1m / 5 = 8/5`, not
`count_5m / 5 = 9/5`, and the printed "raw 5-minute count" is
`count_1s = 6`, not `count_5m = 9`. -/
theorem claim_C3_counterexample :
    (runCycle [] (buildSnapshot
        [(("10.0.0.5", "10.0.0.9", 1), (1999/2 : ℚ)),
         (("10.0.0.5", "10.0.0.9", 2), (1999/2 : ℚ)),
         (("10.0.0.5", "10.0.0.9", 3), (1999/2 : ℚ)),
         (("10.0.0.5", "10.0.0.9", 4), (1999/2 : ℚ)),
         (("10.0.0.5", "10.0.0.9", 5), (1999/2 : ℚ)),
         (("10.0.0.5", "10.0.0.9", 6), (1999/2 : ℚ)),
         (("10.0.0.5", "10.0.0.9", 7), (970 : ℚ)),
         (("10.0.0.5", "10.0.0.9", 8), (970 : ℚ)),
         (("10.0.0.5", "10.0.0.9", 9), (880 : ℚ))] 1000)).2
      = [("10.0.0.5", 0)] ∧
    ¬ (fanout_per_1m (snapGet (buildSnapshot
          [(("10.0.0.5", "10.0.0.9", 1), (1999/2 : ℚ)),
           (("10.0.0.5", "10.0.0.9", 2), (1999/2 : ℚ)),
           (("10.0.0.5", "10.0.0.9", 3), (1999/2 : ℚ)),
           (("10.0.0.5", "10.0.0.9", 4), (1999/2 : ℚ)),
           (("10.0.0.5", "10.0.0.9", 5), (1999/2 : ℚ)),
           (("10.0.0.5", "10.0.0.9", 6), (1999/2 : ℚ)),
           (("10.0.0.5", "10.0.0.9", 7), (970 : ℚ)),
           (("10.0.0.5", "10.0.0.9", 8), (970 : ℚ)),
           (("10.0.0.5", "10.0.0.9", 9), (880 : ℚ))] 1000) "10.0.0.5")
        = (windowCount
          [(("10.0.0.5", "10.0.0.9", 1), (1999/2 : ℚ)),
           (("10.0.0.5", "10.0.0.9", 2), (1999/2 : ℚ)),
           (("10.0.0.5", "10.0.0.9", 3), (1999/2 : ℚ)),
           (("10.0.0.5", "10.0.0.9", 4), (1999/2 : ℚ)),
           (("10.0.0.5", "10.0.0.9", 5), (1999/2 : ℚ)),
           (("10.0.0.5", "10.0.0.9", 6), (1999/2 : ℚ)),
           (("10.0.0.5", "10.0.0.9", 7), (970 : ℚ)),
           (("10.0.0.5", "10.0.0.9", 8), (970 : ℚ)),
           (("10.0.0.5", "10.0.0.9", 9), (880 : ℚ))] 1000 "10.0.0.5" 300 : ℚ) / 5 ∧
       fanout_per_5m (snapGet (buildSnapshot
          [(("10.0.0.5", "10.0.0.9", 1), (1999/2 : ℚ)),
           (("10.0.0.5", "10.0.0.9", 2), (1999/2 : ℚ)),
           (("10.0.0.5", "10.0.0.9", 3), (1999/2 : ℚ)),
           (("10.0.0.5", "10.0.0.9", 4), (1999/2 : ℚ)),
           (("10.0.0.5", "10.0.0.9", 5), (1999/2 : ℚ)),
           (("10.0.0.5", "10.0.0.9", 6), (1999/2 : ℚ)),
           (("10.0.0.5", "10.0.0.9", 7), (970 : ℚ)),
           (("10.0.0.5", "10.0.0.9", 8), (970 : ℚ)),
           (("10.0.0.5", "10.0.0.9", 9), (880 : ℚ))] 1000) "10.0.0.5")
        = (windowCount
          [(("10.0.0.5", "10.0.0.9", 1), (1999/2 : ℚ)),
           (("10.0.0.5", "10.0.0.9", 2), (1999/2 : ℚ)),
           (("10.0.0.5", "10.0.0.9", 3), (1999/2 : ℚ)),
           (("10.0.0.5", "10.0.0.9", 4), (1999/2 : ℚ)),
           (("10.0.0.5", "10.0.0.9", 5), (1999/2 : ℚ)),
           (("10.0.0.5", "10.0.0.9", 6), (1999/2 : ℚ)),
           (("10.0.0.5", "10.0.0.9", 7), (970 : ℚ)),
           (("10.0.0.5", "10.0.0.9", 8), (970 : ℚ)),
           (("10.0.0.5", "10.0.0.9", 9), (880 : ℚ))] 1000 "10.0.0.5" 300 : ℚ)) := by
  have hsnap : buildSnapshot
      [(("10.0.0.5", "10.0.0.9", 1), (1999/2 : ℚ)),
       (("10.0.0.5", "10.0.0.9", 2), (1999/2 : ℚ)),
       (("10.0.0.5", "10.0.0.9", 3), (1999/2 : ℚ)),
       (("10.0.0.5", "10.0.0.9", 4), (1999/2 : ℚ)),
       (("10.0.0.5", "10.0.0.9", 5), (1999/2 : ℚ)),
       (("10.0.0.5", "10.0.0.9", 6), (1999/2 : ℚ)),
       (("10.0.0.5", "10.0.0.9", 7), (970 : ℚ)),
       (("10.0.0.5", "10.0.0.9", 8), (970 : ℚ)),
       (("10.0.0.5", "10.0.0.9", 9), (880 : ℚ))] 1000
      = [("10.0.0.5", [6, 8, 9])] := by
    norm_num [buildSnapshot, scanEntry, ages, dictSet, snapGet, dictGet?,
      List.range, List.foldl]
  have hcnt : windowCount
      [(("10.0.0.5", "10.0.0.9", 1), (1999/2 : ℚ)),
       (("10.0.0.5", "10.0.0.9", 2), (1999/2 : ℚ)),
       (("10.0.0.5", "10.0.0.9", 3), (1999/2 : ℚ)),
       (("10.0.0.5", "10.0.0.9", 4), (1999/2 : ℚ)),
       (("10.0.0.5", "10.0.0.9", 5), (1999/2 : ℚ)),
       (("10.0.0.5", "10.0.0.9", 6), (1999/2 : ℚ)),
       (("10.0.0.5", "10.0.0.9", 7), (970 : ℚ)),
       (("10.0.0.5", "10.0.0.9", 8), (970 : ℚ)),
       (("10.0.0.5", "10.0.0.9", 9), (880 : ℚ))] 1000 "10.0.0.5" 300 = 9 := by
    norm_num [windowCount, List.filter]
  rw [hsnap, hcnt]
  constructor
  · decide
  · norm_num [snapGet, dictGet?, fanout_per_1m, fanout_per_5m, List.find?]

/-- C3 amended: only the per-second figure is derived from the 5-minute
window count (`count_5m / 300`); the per-minute figure is `count_1m / 5`
and the figure printed as the raw 5-minute count is `count_1s` — the
labels and window indices are swapped, as flagged by the design note. -/
theorem claim_C3_amended (t : Table) (now : ℚ) (src : String) :
    fanout_per_1s (snapGet (buildSnapshot t now) src)
        = (windowCount t now src 300 : ℚ) / 300 ∧
    fanout_per_1m (snapGet (buildSnapshot t now) src)
        = (windowCount t now src 60 : ℚ) / 5 ∧
    fanout_per_5m (snapGet (buildSnapshot t now) src)
        = (windowCount t now src 1 : ℚ) := by
  rw [snapGet_buildSnapshot]
  exact ⟨rfl, rfl, rfl⟩

/-- C5: one Expiry Worker iteration with a single reference time deletes
exactly the keys strictly older than `max_age_seconds` (default 300),
keeps every other entry with its timestamp unchanged, and equals a filter
by the deletion set collected from the pre-state. -/
theorem claim_C5_expiry (t : Table) (now : ℚ)
    (hnd : (t.map Prod.fst).Nodup) :
    (∀ k ts, (k, ts) ∈ DictCleaner.cleanStep t now DictCleaner.max_age_default ↔
        (k, ts) ∈ t ∧ ¬ now - ts > DictCleaner.max_age_default) ∧
    DictCleaner.cleanStep t now DictCleaner.max_age_default =
      t.filter (fun e =>
        decide (e.1 ∉ DictCleaner.keys_to_remove t now DictCleaner.max_age_default)) :=
  ⟨fun k ts => DictCleaner.cleanStep_mem t now _ hnd k ts,
   DictCleaner.cleanStep_eq_filter t now _⟩

/-- C5 witness: with the default 300-second limit, a key aged 400 seconds
is removed and a key aged 100 seconds survives with its timestamp. -/
theorem claim_C5_expiry_witness :
    (("10.0.0.5", "10.0.0.9", 1), (600 : ℚ)) ∉
      DictCleaner.cleanStep
        [(("10.0.0.5", "10.0.0.9", 1), (600 : ℚ)),
         (("10.0.0.5", "10.0.0.9", 2), (900 : ℚ))] 1000 DictCleaner.max_age_default ∧
    (("10.0.0.5", "10.0.0.9", 2), (900 : ℚ)) ∈
      DictCleaner.cleanStep
        [(("10.0.0.5", "10.0.0.9", 1), (600 : ℚ)),
         (("10.0.0.5", "10.0.0.9", 2), (900 : ℚ))] 1000 DictCleaner.max_age_default := by
  have h := (claim_C5_expiry
    [(("10.0.0.5", "10.0.0.9", 1), (600 : ℚ)),
     (("10.0.0.5", "10.0.0.9", 2), (900 : ℚ))] 1000 (by decide)).1
  constructor
  · intro hc
    have := ((h ("10.0.0.5", "10.0.0.9", 1) 600).mp hc).2
    apply this
    show (1000 : ℚ) - 600 > DictCleaner.max_age_default
    norm_num [DictCleaner.max_age_default]
  · refine (h ("10.0.0.5", "10.0.0.9", 2) 900).mpr ⟨by simp, ?_⟩
    show ¬ (1000 : ℚ) - 900 > DictCleaner.max_age_default
    norm_num [DictCleaner.max_age_default]

/-- C7: for one snapshot reference time, the window counts are monotonic
per source: the 1-second count ≤ the 1-minute count ≤ the 5-minute count,
i.e. index 0 ≤ index 1 ≤ index 2 of the snapshot vector. -/
theorem claim_C7_window_monotone (t : Table) (now : ℚ) (src : String) :
    windowCount t now src 1 ≤ windowCount t now src 60 ∧
    windowCount t now src 60 ≤ windowCount t now src 300 ∧
    (snapGet (buildSnapshot t now) src).getD 0 0
        ≤ (snapGet (buildSnapshot t now) src).getD 1 0 ∧
    (snapGet (buildSnapshot t now) src).getD 1 0
        ≤ (snapGet (buildSnapshot t now) src).getD 2 0 := by
  have h1 := windowCount_mono t now src 1 60 (by norm_num)
  have h2 := windowCount_mono t now src 60 300 (by norm_num)
  refine ⟨h1, h2, ?_, ?_⟩ <;> rw [snapGet_buildSnapshot] <;> simpa

/-- C10: the threshold comparison is strict: a count exactly equal to
`max_connections[i]` never triggers tier `i`, and any detected tier's
count is strictly greater than its threshold. -/
theorem claim_C10_strict_threshold (vec blocked : List ℕ) (i : ℕ)
    (heq : vec.getD i 0 = max_connections.getD i 0) :
    detectTier vec blocked ≠ some i ∧
    (∀ j, detectTier vec blocked = some j →
      max_connections.getD j 0 < vec.getD j 0) := by
  constructor
  · intro hd
    have := (detectTier_eq_some vec blocked i hd).2.1
    omega
  · intro j hd
    exact (detectTier_eq_some vec blocked j hd).2.1

/-- C10 witness: a 1-second count of exactly 5 (the threshold) raises no
tier-0 alert. -/
theorem claim_C10_strict_threshold_witness :
    [5, 0, 0].getD 0 0 = max_connections.getD 0 0 ∧
    detectTier [5, 0, 0] [] ≠ some 0 :=
  ⟨by decide, (claim_C10_strict_threshold [5, 0, 0] [] 0 (by decide)).1⟩

/-- C8: six distinct Flow Keys sharing source 10.0.0.5, all half a second
old at the snapshot: the snapshot vector is `[6, 6, 6]`, the cycle emits
exactly one alert for the 1-second tier (index 0, window `ages[0] = 1`,
count 6 > threshold 5), and the counts do not exceed the 1-minute or
5-minute thresholds (6 ≤ 100 and 6 ≤ 300). -/
theorem claim_C8_six_flows_one_second :
    buildSnapshot
      [(("10.0.0.5", "10.0.0.9", 1), (199/2 : ℚ)),
       (("10.0.0.5", "10.0.0.9", 2), (199/2 : ℚ)),
       (("10.0.0.5", "10.0.0.9", 3), (199/2 : ℚ)),
       (("10.0.0.5", "10.0.0.9", 4), (199/2 : ℚ)),
       (("10.0.0.5", "10.0.0.9", 5), (199/2 : ℚ)),
       (("10.0.0.5", "10.0.0.9", 6), (199/2 : ℚ))] 100
      = [("10.0.0.5", [6, 6, 6])] ∧
    runCycle [] [("10.0.0.5", [6, 6, 6])]
      = ([("10.0.0.5", [0])], [("10.0.0.5", 0)]) ∧
    ages.getD 0 0 = 1 ∧
    ¬ 6 > max_connections.getD 1 0 ∧ ¬ 6 > max_connections.getD 2 0 := by
  refine ⟨?_, by decide, by decide, by decide, by decide⟩
  norm_num [buildSnapshot, scanEntry, ages, dictSet, snapGet, dictGet?,
    List.range, List.foldl]

/-- C9: one Capture Worker frame mutates at most one Contact Table entry:
a dissected frame whose ethertype is not 8 leaves the table unchanged; an
IPv4 frame whose IP protocol is neither 6 (TCP) nor 17 (UDP) — ICMP
included — leaves it unchanged; and a TCP or UDP frame upserts only the
entry of its flow key `(src_ip, dest_ip, dest_port)`: that key maps to the
new timestamp, every other key is untouched, and a key already present
does not grow the table. -/
theorem claim_C9_frame_effect
    (t : Table) (frame : List ℕ) (now : ℚ)
    (dm sm : String) (protocol : ℕ) (ip_data : List ℕ)
    (hdis : ethernet_dissect frame = some (dm, sm, protocol, ip_data)) :
    (protocol ≠ 8 → processFrame t frame now = some t) ∧
    (∀ ipp sip dip td, protocol = 8 →
      ipv4_dissect ip_data = some (ipp, sip, dip, td) →
      ipp ≠ 6 → ipp ≠ 17 → processFrame t frame now = some t) ∧
    (∀ ipp sip dip td sp dp, protocol = 8 →
      ipv4_dissect ip_data = some (ipp, sip, dip, td) →
      ((ipp = 6 ∧ tcp_dissect td = some (sp, dp)) ∨
        (ipp = 17 ∧ udp_dissect td = some (sp, dp))) →
      processFrame t frame now = some (dictSet t (sip, dip, dp) now) ∧
      dictGet? (dictSet t (sip, dip, dp) now) (sip, dip, dp) = some now ∧
      (∀ k', k' ≠ (sip, dip, dp) →
        dictGet? (dictSet t (sip, dip, dp) now) k' = dictGet? t k') ∧
      ((sip, dip, dp) ∈ t.map Prod.fst →
        (dictSet t (sip, dip, dp) now).length = t.length)) := by
  refine ⟨?_, ?_, ?_⟩
  · intro hp
    rw [processFrame, hdis]
    simp [hp]
  · intro ipp sip dip td hp hip h6 h17
    subst hp
    rw [processFrame, hdis]
    simp only [if_pos rfl]
    rw [hip]
    simp [h6, h17]
  · intro ipp sip dip td sp dp hp hip hcase
    subst hp
    have hstep : processFrame t frame now = some (dictSet t (sip, dip, dp) now) := by
      rw [processFrame, hdis]
      simp only [if_pos rfl]
      rw [hip]
      rcases hcase with ⟨rfl, htcp⟩ | ⟨rfl, hudp⟩
      · simp [htcp]
      · simp [hudp]
    refine ⟨hstep, dictGet?_dictSet_same t _ now, ?_, ?_⟩
    · intro k' hk'
      exact dictGet?_dictSet_other t _ k' now hk'
    · intro hc
      exact dictSet_length_of_mem t _ now hc

/-- C9 witness: a frame with ethertype bytes `[0, 1]` (dissected protocol
256 ≠ 8) leaves the table unchanged, and a concrete IPv4/TCP frame to
10.0.0.5 → 192.168.0.1 port 443 creates exactly that flow's entry. -/
theorem claim_C9_frame_effect_witness :
    processFrame []
      ([1, 2, 3, 4, 5, 6] ++ [1, 2, 3, 4, 5, 6] ++ [0, 1]) 0 = some [] ∧
    processFrame []
      ([1, 2, 3, 4, 5, 6] ++ [1, 2, 3, 4, 5, 6] ++ [8, 0] ++
        [0, 0, 0, 0, 0, 0, 0, 0, 0] ++ [6] ++ [0, 0] ++
        [10, 0, 0, 5] ++ [192, 168, 0, 1] ++ [0, 80, 1, 187]) 0
      = some [((ipv4_format [10, 0, 0, 5], ipv4_format [192, 168, 0, 1], 443),
               (0 : ℚ))] := by
  have hdis1 : ethernet_dissect
      ([1, 2, 3, 4, 5, 6] ++ [1, 2, 3, 4, 5, 6] ++ [0, 1]) =
      some (mac_format [1, 2, 3, 4, 5, 6], mac_format [1, 2, 3, 4, 5, 6],
        256, []) := by
    rw [ethernet_dissect, if_neg (by decide)]
    norm_num [htons]
  have hdis2 : ethernet_dissect
      ([1, 2, 3, 4, 5, 6] ++ [1, 2, 3, 4, 5, 6] ++ [8, 0] ++
        [0, 0, 0, 0, 0, 0, 0, 0, 0] ++ [6] ++ [0, 0] ++
        [10, 0, 0, 5] ++ [192, 168, 0, 1] ++ [0, 80, 1, 187]) =
      some (mac_format [1, 2, 3, 4, 5, 6], mac_format [1, 2, 3, 4, 5, 6], 8,
        [0, 0, 0, 0, 0, 0, 0, 0, 0] ++ [6] ++ [0, 0] ++
          [10, 0, 0, 5] ++ [192, 168, 0, 1] ++ [0, 80, 1, 187]) := by
    rw [ethernet_dissect, if_neg (by decide)]
    norm_num [htons]
  have hip2 : ipv4_dissect
      ([0, 0, 0, 0, 0, 0, 0, 0, 0] ++ [6] ++ [0, 0] ++
        [10, 0, 0, 5] ++ [192, 168, 0, 1] ++ [0, 80, 1, 187]) =
      some (6, ipv4_format [10, 0, 0, 5], ipv4_format [192, 168, 0, 1],
        [0, 80, 1, 187]) := by
    rw [ipv4_dissect, if_neg (by decide)]
    norm_num
  constructor
  · exact (claim_C9_frame_effect [] _ 0 (mac_format [1, 2, 3, 4, 5, 6])
      (mac_format [1, 2, 3, 4, 5, 6]) 256 [] hdis1).1 (by decide)
  · exact ((claim_C9_frame_effect [] _ 0 (mac_format [1, 2, 3, 4, 5, 6])
      (mac_format [1, 2, 3, 4, 5, 6]) 8
      ([0, 0, 0, 0, 0, 0, 0, 0, 0] ++ [6] ++ [0, 0] ++
        [10, 0, 0, 5] ++ [192, 168, 0, 1] ++ [0, 80, 1, 187]) hdis2).2.2
      6 (ipv4_format [10, 0, 0, 5]) (ipv4_format [192, 168, 0, 1])
      [0, 80, 1, 187] 80 443 rfl hip2
      (Or.inl ⟨rfl, by decide⟩)).1

/-- C4: alert deduplication.  Over any sequence of analyzer cycles started
with an empty blacklist, the emitted `(source, tier)` alerts are pairwise
distinct — a source is never alerted twice for the same tier; a source
exceeding a not-yet-blacklisted tier `j` (with every lower exceeded tier
already blacklisted) is alerted exactly once more, at tier `j`, which is
then blacklisted; and each source yields at most one new alert per cycle. -/
theorem claim_C4_dedup
    (obs : List (Table × ℚ)) (blacklist : Blacklist) (src : String)
    (vec : List ℕ) (j : ℕ) (hj : j < 3)
    (hex : max_connections.getD j 0 < vec.getD j 0)
    (hnb : j ∉ blGet blacklist src)
    (hlow : ∀ i, i < j → max_connections.getD i 0 < vec.getD i 0 →
      i ∈ blGet blacklist src) :
    (runCycles [] obs).2.Nodup ∧
    processSource blacklist src vec =
      (dictSet blacklist src (blGet blacklist src ++ [j]), [(src, j)]) ∧
    (∀ bl' src' vec', ((processSource bl' src' vec').2).length ≤ 1) := by
  refine ⟨(runCycles_spec obs []).2.2, ?_,
    fun bl' src' vec' => (processSource_spec bl' src' vec').2.2⟩
  unfold processSource
  rw [detectTier_first vec (blGet blacklist src) j hj hex hnb hlow]

/-- C4 witness: starting from an empty blacklist, a source with 1-second
count 6 is alerted exactly once, at tier 0, and a two-cycle run over one
concrete table yields duplicate-free alerts. -/
theorem claim_C4_dedup_witness :
    (runCycles []
      [([(("10.0.0.5", "10.0.0.9", 1), (100 : ℚ))], (100 : ℚ)),
       ([(("10.0.0.5", "10.0.0.9", 1), (100 : ℚ))], (100 : ℚ))]).2.Nodup ∧
    processSource [] "10.0.0.5" [6, 0, 0] =
      ([("10.0.0.5", [0])], [("10.0.0.5", 0)]) := by
  have h := claim_C4_dedup
    [([(("10.0.0.5", "10.0.0.9", 1), (100 : ℚ))], (100 : ℚ)),
     ([(("10.0.0.5", "10.0.0.9", 1), (100 : ℚ))], (100 : ℚ))]
    [] "10.0.0.5" [6, 0, 0] 0 (by decide) (by decide) (by decide)
    (fun i hi _ => absurd hi (by omega))
  exact ⟨h.1, h.2.1⟩

end LateralMovement
